import Mathlib

/-!
Verification of the traveler-ai multi-agent travel planner.

This file gives a shallow embedding of the parts of the repository that the
verified properties talk about:

* `create_tasks` (src/tasks.py): builds the five-stage task pipeline, with each
  task's description produced by Python f-string interpolation of the trip
  parameters, and each task's `context` list naming its prerequisite tasks.
* `init_tasks` (src/main.py, `TravelPlannerSystem.initialize`): the orchestrator
  calls `create_tasks(self.agents, travel_preferences)`, i.e. it passes the whole
  preferences dict positionally as the `destination` parameter and leaves every
  other parameter at its default `None`.
* `save_itinerary` (src/main.py, `TravelPlannerSystem._save_itinerary`): builds
  the output filename from the destination and a timestamp and prepends a
  preferences header to the itinerary body.
* `kickoff` (src/main.py, `TravelPlannerSystem.kickoff`): runs initialization,
  crew execution and saving in sequence; the externally fallible steps (agent
  construction, the crew's model calls) are parameters of `Except` type, and the
  file writes performed by a run are returned explicitly.
* `weatherRun` (src/tools.py, `WeatherInfoTool._run`) together with
  `get_weather_description` (`WeatherInfoTool._get_weather_description`): the
  geocode-then-forecast weather lookup, parameterized by the two HTTP responses.
* `websiteRun` (src/tools.py, `WebsiteSearchTool._run`): the single-site content
  extraction tool, parameterized by the outcome of the fetch-and-parse step.

Python values that only flow through f-strings are embedded as `PyArg`
(their `str(...)` rendering plus their truthiness); preference dicts are
association lists of string keys and `PVal` values (strings or string lists),
matching the shapes the application actually builds.
-/

namespace TravelPlanner

/-- Decides whether `pat` occurs as a contiguous run inside a character list. -/
def charsContains (pat : List Char) : List Char → Bool
  | [] => pat.isEmpty
  | c :: cs => pat.isPrefixOf (c :: cs) || charsContains pat cs

/-- Decides whether the string `pat` occurs as a substring of `s`. -/
def strContains (s pat : String) : Bool :=
  charsContains pat.data s.data

/-- Python `str.replace(pat, repl)` for one-character pattern and replacement,
which is the only form the repository uses (`' '→'_'` and `'_'→' '`). -/
def pyReplaceChar (pat repl : Char) (s : String) : String :=
  ⟨s.data.map (fun c => if c = pat then repl else c)⟩

/-- Python slicing `s[:n]`, counting code points exactly as Python does. -/
def pyTake (s : String) (n : Nat) : String :=
  ⟨s.data.take n⟩

/-- Helper for `pyTitle`: the Boolean records whether the previous character was
alphabetic, i.e. whether we are inside a word. -/
def pyTitleAux : Bool → List Char → List Char
  | _, [] => []
  | prevAlpha, c :: cs =>
    (if prevAlpha then c.toLower else c.toUpper) :: pyTitleAux c.isAlpha cs

/-- Python `str.title()`: the first character of each word is uppercased and the
remaining cased characters are lowercased. -/
def pyTitle (s : String) : String :=
  ⟨pyTitleAux false s.data⟩

/-- A Python value as seen by an f-string interpolation site: `s` is its
`str(...)` rendering and `truthy` its Python truthiness. -/
structure PyArg where
  s : String
  truthy : Bool

/-- Python `None`: renders as `"None"` and is falsy. -/
def pyNone : PyArg := ⟨"None", false⟩

/-- A Python preference value as the application builds it: a string or a list
of strings (the `interests` list). -/
inductive PVal where
  | str : String → PVal
  | list : List String → PVal
deriving DecidableEq

/-- Python `repr` of a string built by the application (single-quoted). -/
def pyQuote (s : String) : String :=
  "\x27" ++ s ++ "\x27"

/-- Python `repr` of a `PVal`. -/
def pyReprVal : PVal → String
  | .str s => pyQuote s
  | .list xs => "[" ++ String.intercalate ", " (xs.map pyQuote) ++ "]"

/-- Python `str` of a preferences dict, as interpolated by an f-string. -/
def pyReprDict (prefs : List (String × PVal)) : String :=
  "\x7b" ++ String.intercalate ", " (prefs.map fun kv => pyQuote kv.1 ++ ": " ++ pyReprVal kv.2) ++ "\x7d"

/-- A preferences dict as an f-string argument: its `str` rendering, truthy
exactly when the dict is nonempty. -/
def pyDictArg (prefs : List (String × PVal)) : PyArg :=
  ⟨pyReprDict prefs, !prefs.isEmpty⟩

/-- One task of the pipeline, from `crewai.Task` as instantiated in
src/tasks.py. The fields are description, agent (the key of the assigned agent
in the agents dict), expected output, and context: the positions, in the list
returned by `create_tasks`, of the tasks whose results this task depends on
(the source passes the task objects themselves). -/
structure Task where
  description : String
  agent : String
  expected_output : String
  context : List Nat

/-- The task builder `create_tasks` of src/tasks.py. Every parameter defaults
to `None` in the source; each description is the source's f-string with the
interpolation sites filled from the arguments' `str` renderings, and the
`destination if destination else '...'` sites use the argument's truthiness. -/
def create_tasks (destination start_date end_date budget interests
    accommodation_preferences transportation_preferences travelers : PyArg) : List Task :=
  let destination_research_task : Task :=
    ⟨"Research " ++ (if destination.truthy then destination.s else "potential travel destinations") ++
      " \n        based on the following criteria:\n        - Travel dates: " ++ start_date.s ++
      " to " ++ end_date.s ++ "\n        - Budget: " ++ budget.s ++
      "\n        - Interests: " ++ interests.s ++
      "\n        - Number of travelers: " ++ travelers.s ++
      "\n        \n        If no specific destination is provided, recommend 3 suitable destinations that match the criteria.\n        For each destination, provide:\n        1. Overview of the destination\n        2. Best time to visit and current weather/seasonal considerations\n        3. Cultural highlights and unique aspects\n        4. Safety information and travel advisories\n        5. Estimated overall costs\n        6. Visa requirements if applicable\n        \n        Your research should be thorough and up-to-date.\n        ",
      "destination_researcher",
      "A comprehensive report on the destination(s) with all requested information.",
      []⟩
  let accommodation_task : Task :=
    ⟨"Based on the destination research, find the best accommodation options that match these criteria:\n        - Location: " ++
      (if destination.truthy then destination.s else "To be determined based on destination research") ++
      "\n        - Check-in date: " ++ start_date.s ++
      "\n        - Check-out date: " ++ end_date.s ++
      "\n        - Budget: " ++ budget.s ++
      "\n        - Preferences: " ++ accommodation_preferences.s ++
      "\n        - Number of travelers: " ++ travelers.s ++
      "\n        \n        For each recommended accommodation, provide:\n        1. Name, type (hotel, hostel, apartment, etc.), and location\n        2. Price range and value assessment\n        3. Amenities and features\n        4. Proximity to attractions/city center\n        5. Guest ratings and reviews summary\n        6. Any special considerations (e.g., accessibility, family-friendliness)\n        \n        Recommend at least 3 options at different price points when possible.\n        ",
      "accommodation_specialist",
      "A detailed list of accommodation options with all requested information.",
      [0]⟩
  let activities_task : Task :=
    ⟨"Based on the destination research, create a comprehensive list of activities and attractions that match these criteria:\n        - Location: " ++
      (if destination.truthy then destination.s else "To be determined based on destination research") ++
      "\n        - Travel dates: " ++ start_date.s ++ " to " ++ end_date.s ++
      "\n        - Interests: " ++ interests.s ++
      "\n        - Budget considerations: " ++ budget.s ++
      "\n        - Number of travelers: " ++ travelers.s ++
      "\n        \n        For each recommended activity or attraction, provide:\n        1. Name and type of activity/attraction\n        2. Location and how to get there\n        3. Recommended duration\n        4. Cost (entry fees, guided tours, etc.)\n        5. Booking requirements (advance tickets, reservations)\n        6. Best time to visit (time of day, day of week)\n        7. Insider tips or special considerations\n        \n        Include a mix of popular attractions and hidden gems. Consider seasonal events or festivals happening during the travel dates.\n        ",
      "activities_planner",
      "A comprehensive list of activities and attractions with all requested information.",
      [0]⟩
  let transportation_task : Task :=
    ⟨"Based on the destination research, plan the most efficient transportation options for this trip:\n        - Origin to destination transportation (if needed)\n        - Local transportation within the destination\n        - Transportation between accommodations and activities\n        \n        Consider these factors:\n        - Travel dates: " ++
      start_date.s ++ " to " ++ end_date.s ++
      "\n        - Budget: " ++ budget.s ++
      "\n        - Preferences: " ++ transportation_preferences.s ++
      "\n        - Number of travelers: " ++ travelers.s ++
      "\n        \n        For each transportation recommendation, provide:\n        1. Type of transportation (flight, train, bus, rental car, etc.)\n        2. Estimated costs\n        3. Booking information and tips\n        4. Schedules and duration\n        5. Convenience and comfort assessment\n        6. Any special considerations (e.g., accessibility, luggage restrictions)\n        \n        Include both transportation to/from the destination and local transportation options.\n        ",
      "transportation_coordinator",
      "A detailed transportation plan with all requested information.",
      [0, 2]⟩
  let itinerary_task : Task :=
    ⟨"Compile all the research and recommendations into a comprehensive day-by-day travel itinerary:\n        - Travel dates: " ++
      start_date.s ++ " to " ++ end_date.s ++
      "\n        - Destination: " ++ (if destination.truthy then destination.s else "As determined by research") ++
      "\n        \n        The itinerary should include:\n        1. A brief overview of the trip\n        2. Day-by-day schedule with:\n           - Accommodations\n           - Activities and attractions with timing\n           - Transportation details\n           - Meal suggestions or reservations\n           - Free time blocks\n        3. Estimated costs breakdown\n        4. Packing suggestions based on activities and weather\n        5. Important contact information and emergency resources\n        \n        The itinerary should be realistic, well-paced, and consider travel times between locations. \n        Balance scheduled activities with free time for relaxation or spontaneous exploration.\n        ",
      "itinerary_compiler",
      "A complete day-by-day travel itinerary with all requested information.",
      [0, 1, 2, 3]⟩
  [destination_research_task, accommodation_task, activities_task, transportation_task, itinerary_task]

/-- The first task's description in the no-destination case (the `else` branches
of the f-string conditionals), kept in the exact shape `create_tasks` produces. -/
def research_description_without_destination (start_date end_date budget interests travelers : PyArg) : String :=
  "Research " ++ "potential travel destinations" ++
    " \n        based on the following criteria:\n        - Travel dates: " ++ start_date.s ++
    " to " ++ end_date.s ++ "\n        - Budget: " ++ budget.s ++
    "\n        - Interests: " ++ interests.s ++
    "\n        - Number of travelers: " ++ travelers.s ++
    "\n        \n        If no specific destination is provided, recommend 3 suitable destinations that match the criteria.\n        For each destination, provide:\n        1. Overview of the destination\n        2. Best time to visit and current weather/seasonal considerations\n        3. Cultural highlights and unique aspects\n        4. Safety information and travel advisories\n        5. Estimated overall costs\n        6. Visa requirements if applicable\n        \n        Your research should be thorough and up-to-date.\n        "

/-- The task construction performed by `TravelPlannerSystem.initialize`
(src/main.py line 51): `create_tasks(self.agents, travel_preferences)` binds the
preferences dict to `create_tasks`'s `destination` parameter positionally, so
`start_date`, `end_date`, `budget`, `interests`, `accommodation_preferences`,
`transportation_preferences` and `travelers` all keep their default `None`. -/
def init_tasks (prefs : List (String × PVal)) : List Task :=
  create_tasks (pyDictArg prefs) pyNone pyNone pyNone pyNone pyNone pyNone pyNone

/-- The travel preferences of the spec's end-to-end Tokyo scenario, in the shape
`TravelPlannerSystem.plan_trip` builds (src/main.py lines 106-115). -/
def tokyoPrefs : List (String × PVal) :=
  [("destination", .str "Tokyo, Japan"),
   ("travel_dates", .str "2026-06-10 to 2026-06-17"),
   ("duration", .str "7 days"),
   ("budget", .str "Mid-range"),
   ("travelers", .str "2 people"),
   ("interests", .list ["Food", "Culture"]),
   ("accommodation_type", .str "Hotel"),
   ("transportation", .str "Public Transit")]

/-- The per-value rendering in `_save_itinerary`'s header loop: lists are joined
with `", "`, anything else goes through `str(...)`. -/
def formattedValue : PVal → String
  | .str s => s
  | .list xs => String.intercalate ", " xs

/-- One header line of the saved file:
`f"- **{formatted_key}:** {formatted_value}\n"` with
`formatted_key = key.replace('_', ' ').title()`. -/
def prefLine (kv : String × PVal) : String :=
  "- **" ++ pyTitle (pyReplaceChar '_' ' ' kv.1) ++ ":** " ++ formattedValue kv.2 ++ "\n"

/-- The preferences header `_save_itinerary` prepends to the itinerary body. -/
def headerOf (prefs : List (String × PVal)) : String :=
  "# Travel Itinerary\n\n## Travel Preferences\n\n" ++
    String.join (prefs.map prefLine) ++ "\n## Itinerary\n\n"

/-- The destination token used in the filename:
`preferences.get("destination", "Custom")`. A list value would make the
subsequent `.replace` raise `AttributeError` in Python, embedded as `.error`. -/
def destinationToken (prefs : List (String × PVal)) : Except String String :=
  match prefs.lookup "destination" with
  | none => .ok "Custom"
  | some (.str s) => .ok s
  | some (.list _) => .error "AttributeError"

/-- The method `TravelPlannerSystem._save_itinerary`: returns the filename and
the file content that gets written (header followed by the itinerary body).
`timestamp` stands for `datetime.now().strftime("%Y%m%d_%H%M%S")`. -/
def save_itinerary (itinerary : String) (prefs : List (String × PVal))
    (timestamp : String) : Except String (String × String) :=
  match destinationToken prefs with
  | .error e => .error e
  | .ok dest =>
    .ok ("travel_plans/" ++ pyReplaceChar ' ' '_' dest ++ "_" ++ timestamp ++ ".md",
         headerOf prefs ++ itinerary)

/-- The method `TravelPlannerSystem.kickoff`: initialize (agent construction,
then task construction), run the crew, then save. `agentsResult` is the outcome
of `create_agents()` and `runCrew` the outcome of `self.crew.kickoff()` on the
constructed task list; both raise by returning `.error`, which propagates
uncaught. The second component of the result lists the `(filename, content)`
pairs written to disk during the run. -/
def kickoff (prefs : List (String × PVal)) (now : String)
    (agentsResult : Except String Unit)
    (runCrew : List Task → Except String String) :
    Except String (String × String) × List (String × String) :=
  match agentsResult with
  | .error e => (.error e, [])
  | .ok _ =>
    match runCrew (init_tasks prefs) with
    | .error e => (.error e, [])
    | .ok result =>
      match save_itinerary result prefs now with
      | .error e => (.error e, [])
      | .ok fc => (.ok (result, fc.1), [fc])

/-- A crew stub that succeeds with a fixed itinerary text, used to instantiate
`kickoff` at concrete inputs. -/
def constCrew : List Task → Except String String :=
  fun _ => .ok "itinerary body"

/-- The weather-code table of `WeatherInfoTool._get_weather_description`
(src/tools.py lines 233-262), in source order. -/
def weather_codes_table : List (Int × String) :=
  [(0, "Clear sky"), (1, "Mainly clear"), (2, "Partly cloudy"), (3, "Overcast"),
   (45, "Fog"), (48, "Depositing rime fog"),
   (51, "Light drizzle"), (53, "Moderate drizzle"), (55, "Dense drizzle"),
   (56, "Light freezing drizzle"), (57, "Dense freezing drizzle"),
   (61, "Slight rain"), (63, "Moderate rain"), (65, "Heavy rain"),
   (66, "Light freezing rain"), (67, "Heavy freezing rain"),
   (71, "Slight snow fall"), (73, "Moderate snow fall"), (75, "Heavy snow fall"),
   (77, "Snow grains"),
   (80, "Slight rain showers"), (81, "Moderate rain showers"), (82, "Violent rain showers"),
   (85, "Slight snow showers"), (86, "Heavy snow showers"),
   (95, "Thunderstorm"), (96, "Thunderstorm with slight hail"),
   (99, "Thunderstorm with heavy hail")]

/-- First-match lookup in an association list, the behavior of a Python dict
access on a dict literal with distinct keys. -/
def lookupCode (code : Int) : List (Int × String) → Option String
  | [] => none
  | kv :: rest => if code = kv.1 then some kv.2 else lookupCode code rest

/-- The method `WeatherInfoTool._get_weather_description`:
`weather_codes.get(code, "Unknown")`. -/
def get_weather_description (code : Int) : String :=
  (lookupCode code weather_codes_table).getD "Unknown"

/-- One entry of the geocoding response's `results` array, holding the fields
`WeatherInfoTool._run` reads. `country` is read with `.get(..., "")`; the
coordinates are opaque to the formatting logic (they only feed the forecast
request). -/
structure GeoInfo where
  name : String
  country : Option String
  latitude : String
  longitude : String

/-- The `current` block of the weather response; every field is read with
`.get` and a default (`weather_code` defaults to `0`, the numeric readings
render as `"N/A"` when absent). -/
structure CurrentData where
  weather_code : Option Int
  temperature_2m : Option String
  wind_speed_10m : Option String

/-- The `daily` block of the weather response; each field is read with
`.get(..., [])`, so absent arrays are the empty list. The numeric readings are
kept as their f-string renderings. -/
structure DailyData where
  time : List String
  temperature_2m_max : List String
  temperature_2m_min : List String
  precipitation_sum : List String
  weather_code : List Int

/-- The fixed query parameters `WeatherInfoTool._run` sends to the forecast
service: current fields, daily fields, timezone, and `forecast_days`. -/
structure ForecastParams where
  current : String
  daily : String
  timezone : String
  forecast_days : Nat

/-- The `params` dict of `WeatherInfoTool._run` (src/tools.py lines 168-175):
14 forecast days are requested. -/
def weatherRequestParams : ForecastParams :=
  ⟨"temperature_2m,weather_code,wind_speed_10m",
   "weather_code,temperature_2m_max,temperature_2m_min,precipitation_sum",
   "auto", 14⟩

/-- Python list indexing: out of range raises `IndexError`, embedded as
`.error "list index out of range"`. -/
def getIdx {α : Type} (xs : List α) (i : Nat) : Except String α :=
  match xs.get? i with
  | some x => .ok x
  | none => .error "list index out of range"

/-- One iteration of the daily-forecast loop in `WeatherInfoTool._run`
(src/tools.py lines 221-224); any out-of-range access aborts the whole `_run`
body, matching Python's exception flow. -/
def forecastLine (d : DailyData) (i : Nat) : Except String String :=
  match getIdx d.weather_code i, getIdx d.time i, getIdx d.temperature_2m_min i,
      getIdx d.temperature_2m_max i, getIdx d.precipitation_sum i with
  | .ok wc, .ok date, .ok mn, .ok mx, .ok pr =>
    .ok (date ++ ": " ++ get_weather_description wc ++ ", " ++ mn ++ "°C to " ++ mx ++
      "°C, Precipitation: " ++ pr ++ " mm\n")
  | .error e, _, _, _, _ => .error e
  | _, .error e, _, _, _ => .error e
  | _, _, .error e, _, _ => .error e
  | _, _, _, .error e, _ => .error e
  | _, _, _, _, .error e => .error e

/-- The daily-forecast loop over the given index list, first error aborting. -/
def forecastLines (d : DailyData) : List Nat → Except String (List String)
  | [] => .ok []
  | i :: is =>
    match forecastLine d i with
    | .error e => .error e
    | .ok line =>
      match forecastLines d is with
      | .error e => .error e
      | .ok rest => .ok (line :: rest)

/-- The current-conditions lines of `WeatherInfoTool._run`
(src/tools.py lines 203-209). -/
def currentConditionsLine (c : CurrentData) : String :=
  "Current conditions: " ++ get_weather_description (c.weather_code.getD 0) ++ ", " ++
    c.temperature_2m.getD "N/A" ++ "°C, Wind: " ++ c.wind_speed_10m.getD "N/A" ++ " km/h\n\n"

/-- The body of `WeatherInfoTool._run`'s `try` block, parameterized by the
geocoding response's `results` array and the optional `current` and `daily`
blocks of the forecast response. An empty `results` array returns the
could-not-find message; the daily loop runs over `range(min(7, len(dates)))`. -/
def weatherBody (location : String) (geoResults : List GeoInfo)
    (current : Option CurrentData) (daily : Option DailyData) : Except String String :=
  match geoResults with
  | [] => .ok ("Could not find location: " ++ location)
  | g :: _ =>
    let base := "Weather information for " ++ g.name ++ ", " ++ g.country.getD "" ++ ":\n\n"
    let withCurrent := base ++
      (match current with
       | none => ""
       | some c => currentConditionsLine c)
    match daily with
    | none => .ok withCurrent
    | some d =>
      match forecastLines d (List.range (min 7 d.time.length)) with
      | .error e => .error e
      | .ok ls => .ok (withCurrent ++ "Daily forecast:\n" ++ String.join ls)

/-- The method `WeatherInfoTool._run`: the surrounding `except Exception`
converts any exception of the body into an error string, so the tool always
returns a string to its caller. -/
def weatherRun (location : String) (geoResults : List GeoInfo)
    (current : Option CurrentData) (daily : Option DailyData) : String :=
  match weatherBody location geoResults current daily with
  | .ok s => s
  | .error e => "Error retrieving weather information: " ++ e

/-- The text clean-up of `WebsiteSearchTool._run` (src/tools.py lines 124-126):
strip each line, split on double spaces, drop empty chunks, rejoin. -/
def cleanText (text : String) : String :=
  let lines := (text.splitOn "\n").map (fun l => l.trim)
  let chunks := lines.flatMap (fun l => (l.splitOn "  ").map (fun p => p.trim))
  String.intercalate "\n" (chunks.filter (fun c => !(c == "")))

/-- The fallback content of `WebsiteSearchTool._run`: the page text truncated to
its first 2000 characters (src/tools.py lines 140-142). -/
def websiteContentDefault (url content : String) : String :=
  "Information from " ++ url ++ ":\n\n" ++
    (if content.length > 2000 then pyTake content 2000 ++ "..." else content)

/-- The method `WebsiteSearchTool._run`, parameterized by the outcome of
fetching and soup-extracting the page text (`.error` when the request raises or
`raise_for_status` fires); the surrounding `except Exception` turns any such
exception into the marker-prefixed error string. A falsy (absent or empty)
query skips the relevance filter, as does a query with no matching paragraph. -/
def websiteRun (url : String) (query : Option String)
    (fetched : Except String String) : String :=
  match fetched with
  | .error e => "Error extracting information from website: " ++ e
  | .ok text =>
    let cleaned := cleanText text
    match query with
    | none => websiteContentDefault url cleaned
    | some q =>
      if q == "" then websiteContentDefault url cleaned
      else
        let relevant := (cleaned.splitOn "\n\n").filter
          (fun p => strContains p.toLower q.toLower)
        if relevant.isEmpty then websiteContentDefault url cleaned
        else
          "Information from " ++ url ++ " related to \x27" ++ q ++ "\x27:\n\n" ++
            String.intercalate "\n\n" (relevant.take 5)

/-- A concrete geocoding result for Tokyo. -/
def tokyoGeo : GeoInfo := ⟨"Tokyo", some "Japan", "35.6895", "139.6917"⟩

/-- A concrete current-conditions block. -/
def tokyoCurrent : CurrentData := ⟨some 2, some "21.4", some "8.6"⟩

/-- A concrete one-day daily block (time, max, min, precipitation, codes). -/
def tokyoDaily : DailyData := ⟨["2026-06-10"], ["24.1"], ["18.0"], ["0.5"], [3]⟩

/-- Appending on the left preserves substring containment (character lists). -/
theorem charsContains_append_right (pat ys : List Char) (h : charsContains pat ys = true) :
    ∀ xs, charsContains pat (xs ++ ys) = true := by
  intro xs
  induction xs with
  | nil => simpa using h
  | cons c cs ih =>
    rw [List.cons_append]
    show (pat.isPrefixOf (c :: (cs ++ ys)) || charsContains pat (cs ++ ys)) = true
    rw [ih, Bool.or_true]

/-- Appending on the left preserves substring containment (strings). -/
theorem strContains_append_right (a b pat : String) (h : strContains b pat = true) :
    strContains (a ++ b) pat = true := by
  unfold strContains at h ⊢
  rw [show (a ++ b).data = a.data ++ b.data from rfl]
  exact charsContains_append_right pat.data b.data h a.data

/-- String concatenation is associative. -/
theorem string_append_assoc (a b c : String) : a ++ b ++ c = a ++ (b ++ c) :=
  congrArg String.mk (List.append_assoc a.data b.data c.data)

/-- A successful run of the daily-forecast loop yields one line per index. -/
theorem forecastLines_length (d : DailyData) :
    ∀ idxs ls, forecastLines d idxs = Except.ok ls → ls.length = idxs.length := by
  intro idxs
  induction idxs with
  | nil =>
    intro ls h
    simp only [forecastLines] at h
    cases h
    rfl
  | cons i is ih =>
    intro ls h
    simp only [forecastLines] at h
    cases hl : forecastLine d i with
    | error e => simp [hl] at h
    | ok line =>
      cases hr : forecastLines d is with
      | error e => simp [hl, hr] at h
      | ok rest =>
        simp [hl, hr] at h
        subst h
        simp [ih rest hr]

/-- A code outside the key set of an association list is not found. -/
theorem lookupCode_eq_none (code : Int) :
    ∀ table : List (Int × String), code ∉ table.map Prod.fst → lookupCode code table = none := by
  intro table
  induction table with
  | nil => intro _; rfl
  | cons kv rest ih =>
    intro h
    simp only [List.map_cons, List.mem_cons, not_or] at h
    simp only [lookupCode]
    rw [if_neg h.1]
    exact ih h.2

/-- Claim C1: for every set of trip preferences, `create_tasks` returns exactly
five tasks, in the fixed order destination research, accommodation, activities,
transportation, itinerary compilation; the declared dependencies are task 2 on
task 1, task 3 on task 1, task 4 on tasks 1 and 3, and task 5 on tasks 1-4
(0-based positions `[[], [0], [0], [0, 2], [0, 1, 2, 3]]`); and every task's
prerequisites sit strictly earlier in the returned list, so running the list
sequentially (the `Process.sequential` crew of `TravelPlannerSystem.initialize`)
never runs a task before all of its prerequisites have produced a result. -/
theorem create_tasks_five_tasks_ordered (destination start_date end_date budget interests
    accommodation_preferences transportation_preferences travelers : PyArg) :
    (create_tasks destination start_date end_date budget interests
        accommodation_preferences transportation_preferences travelers).length = 5
    ∧ (create_tasks destination start_date end_date budget interests
        accommodation_preferences transportation_preferences travelers).map Task.agent =
      ["destination_researcher", "accommodation_specialist", "activities_planner",
       "transportation_coordinator", "itinerary_compiler"]
    ∧ (create_tasks destination start_date end_date budget interests
        accommodation_preferences transportation_preferences travelers).map Task.context =
      [[], [0], [0], [0, 2], [0, 1, 2, 3]]
    ∧ ∀ k t, (create_tasks destination start_date end_date budget interests
        accommodation_preferences transportation_preferences travelers).get? k = some t →
        ∀ j ∈ t.context, j < k := by
  refine ⟨rfl, rfl, rfl, ?_⟩
  intro k t hk j hj
  rcases k with _ | _ | _ | _ | _ | k
  · simp only [create_tasks, List.get?] at hk
    cases hk
    simp at hj
  · simp only [create_tasks, List.get?] at hk
    cases hk
    simp at hj
    omega
  · simp only [create_tasks, List.get?] at hk
    cases hk
    simp at hj
    omega
  · simp only [create_tasks, List.get?] at hk
    cases hk
    simp at hj
    rcases hj with hj | hj <;> omega
  · simp only [create_tasks, List.get?] at hk
    cases hk
    simp at hj
    rcases hj with hj | hj | hj | hj <;> omega
  · simp only [create_tasks, List.get?] at hk
    exact Option.noConfusion hk

/-- Claim C1 witness: in the concrete all-`None` instantiation, prerequisite 2
of the transportation task (position 3) indeed sits strictly earlier. -/
theorem create_tasks_five_tasks_ordered_witness : (2 : Nat) < 3 :=
  (create_tasks_five_tasks_ordered pyNone pyNone pyNone pyNone pyNone pyNone
      pyNone pyNone).2.2.2 3 _ rfl 2 (by decide)

set_option maxRecDepth 200000 in
set_option maxHeartbeats 1600000 in
/-- Claim C2, evaluated at the failing input: `TravelPlannerSystem.initialize`
passes the preferences dict positionally as `create_tasks`'s `destination`
parameter, so for the Tokyo preferences the first task's description contains
the `str(...)` of the whole dict (interpolated at a destination site), while
the transportation task's description — whose f-string interpolates only
`start_date`, `end_date`, `budget`, `transportation_preferences` and
`travelers`, all left at `None` — contains none of the preference values
(no travel dates, budget, transportation preference or traveler count), only
literal `None` renderings. This refutes the claim that each task description
contains the corresponding preference values. -/
theorem tasks_built_without_preference_interpolation :
    ∃ t0 t3, (init_tasks tokyoPrefs).get? 0 = some t0
      ∧ (init_tasks tokyoPrefs).get? 3 = some t3
      ∧ strContains t0.description (pyReprDict tokyoPrefs) = true
      ∧ strContains t3.description "Mid-range" = false
      ∧ strContains t3.description "2026-06-10" = false
      ∧ strContains t3.description "Public Transit" = false
      ∧ strContains t3.description "2 people" = false
      ∧ strContains t3.description "- Budget: None" = true
      ∧ strContains t3.description "- Preferences: None" = true
      ∧ strContains t3.description "- Number of travelers: None" = true := by
  refine ⟨_, _, rfl, rfl, ?_, ?_, ?_, ?_, ?_, ?_, ?_, ?_⟩ <;> decide

set_option maxRecDepth 20000 in
/-- Claim C3 counterexample: `_save_itinerary` only replaces spaces by
underscores, so a run with destination `"Tokyo, Japan"` saves to
`travel_plans/Tokyo,_Japan_<timestamp>.md` — the comma survives, and the
filename does not contain the substring `"Tokyo_Japan"`. -/
theorem tokyo_filename_lacks_plain_token :
    ∃ fn content,
      save_itinerary "Day 1: arrival in Tokyo." tokyoPrefs "20260610_083000" =
        Except.ok (fn, content)
      ∧ fn = "travel_plans/Tokyo,_Japan_20260610_083000.md"
      ∧ strContains fn "Tokyo_Japan" = false
      ∧ strContains fn "Tokyo,_Japan" = true := by
  refine ⟨_, _, rfl, ?_, ?_, ?_⟩ <;> decide

/-- Claim C3 as amended: the saved path is
`travel_plans/<destination with each space replaced by an underscore>_<timestamp>.md`
(so a destination containing a comma keeps it, e.g. `Tokyo,_Japan`), with the
default token `Custom` when the `destination` key is absent; the content is the
preferences header followed by the itinerary body. -/
theorem save_itinerary_filename_format (itinerary : String)
    (prefs : List (String × PVal)) (timestamp : String) :
    (∀ s, prefs.lookup "destination" = some (.str s) →
      save_itinerary itinerary prefs timestamp =
        Except.ok ("travel_plans/" ++ pyReplaceChar ' ' '_' s ++ "_" ++ timestamp ++ ".md",
          headerOf prefs ++ itinerary))
    ∧ (prefs.lookup "destination" = none →
      save_itinerary itinerary prefs timestamp =
        Except.ok ("travel_plans/" ++ pyReplaceChar ' ' '_' "Custom" ++ "_" ++ timestamp ++ ".md",
          headerOf prefs ++ itinerary)) := by
  constructor
  · intro s hs
    simp [save_itinerary, destinationToken, hs]
  · intro hn
    simp [save_itinerary, destinationToken, hn]

/-- Claim C3 witness: the general filename law applied to a one-entry
preferences dict with destination `"Tokyo, Japan"`. -/
theorem save_itinerary_filename_format_witness :
    save_itinerary "itinerary body" [("destination", PVal.str "Tokyo, Japan")] "20260610_083000" =
      Except.ok ("travel_plans/" ++ pyReplaceChar ' ' '_' "Tokyo, Japan" ++ "_" ++
          "20260610_083000" ++ ".md",
        headerOf [("destination", PVal.str "Tokyo, Japan")] ++ "itinerary body") :=
  (save_itinerary_filename_format "itinerary body"
    [("destination", PVal.str "Tokyo, Japan")] "20260610_083000").1 "Tokyo, Japan" rfl

/-- Claim C5: whenever the destination argument is falsy (Python `None` or the
empty string), the first task's description is the no-destination variant: it
opens with research of potential travel destinations and carries the
instruction to recommend 3 suitable destinations matching the criteria, rather
than research of a single given destination. -/
theorem no_destination_requests_three_candidates (destination start_date end_date budget interests
    accommodation_preferences transportation_preferences travelers : PyArg)
    (h : destination.truthy = false) :
    ((create_tasks destination start_date end_date budget interests
        accommodation_preferences transportation_preferences travelers).map Task.description).get? 0
      = some (research_description_without_destination start_date end_date budget interests travelers)
    ∧ strContains
        (research_description_without_destination start_date end_date budget interests travelers)
        "recommend 3 suitable destinations that match the criteria" = true := by
  constructor
  · simp [create_tasks, research_description_without_destination, h]
  · unfold research_description_without_destination
    apply strContains_append_right
    decide

/-- Claim C5 witness: the all-`None` instantiation (no destination supplied)
carries the three-candidates instruction. -/
theorem no_destination_requests_three_candidates_witness :
    strContains (research_description_without_destination pyNone pyNone pyNone pyNone pyNone)
      "recommend 3 suitable destinations that match the criteria" = true :=
  (no_destination_requests_three_candidates pyNone pyNone pyNone pyNone pyNone pyNone
    pyNone pyNone rfl).2

/-- Claim C4: a failing run persists nothing. Whenever `kickoff` ends in an
error — agent construction, task construction or crew execution raising — its
list of written files is empty; when agent construction itself fails, the run
fails with that very error without ever consulting the crew (no task executes);
and a file is written exactly on full success, with the filename returned and
the content produced by `_save_itinerary` from the crew's result. -/
theorem kickoff_failure_persists_nothing (prefs : List (String × PVal)) (now : String)
    (agentsResult : Except String Unit) (runCrew : List Task → Except String String) :
    (∀ e, (kickoff prefs now agentsResult runCrew).1 = .error e →
      (kickoff prefs now agentsResult runCrew).2 = [])
    ∧ (∀ e, agentsResult = .error e →
      kickoff prefs now agentsResult runCrew = (.error e, []))
    ∧ (∀ r fn, (kickoff prefs now agentsResult runCrew).1 = .ok (r, fn) →
      ∃ content, (kickoff prefs now agentsResult runCrew).2 = [(fn, content)]
        ∧ runCrew (init_tasks prefs) = .ok r
        ∧ save_itinerary r prefs now = .ok (fn, content)) := by
  refine ⟨?_, ?_, ?_⟩
  · intro e he
    cases hA : agentsResult with
    | error a => simp [kickoff, hA]
    | ok u =>
      cases hC : runCrew (init_tasks prefs) with
      | error b => simp [kickoff, hA, hC]
      | ok r =>
        cases hS : save_itinerary r prefs now with
        | error c => simp [kickoff, hA, hC, hS]
        | ok fc => simp [kickoff, hA, hC, hS] at he
  · intro e hA
    simp [kickoff, hA]
  · intro r fn h
    cases hA : agentsResult with
    | error a => simp [kickoff, hA] at h
    | ok u =>
      cases hC : runCrew (init_tasks prefs) with
      | error b => simp [kickoff, hA, hC] at h
      | ok r2 =>
        cases hS : save_itinerary r2 prefs now with
        | error c => simp [kickoff, hA, hC, hS] at h
        | ok fc =>
          simp only [kickoff, hA, hC, hS] at h ⊢
          injection h with h1
          injection h1 with hr hf
          subst hr
          subst hf
          exact ⟨fc.2, rfl, rfl, hS⟩

/-- Claim C4 witness: with agent construction failing (the missing-credential
case), the run returns that error and writes no file, whatever the crew stub
would have produced. -/
theorem kickoff_failure_persists_nothing_witness :
    kickoff tokyoPrefs "20260610_083000" (.error "OPENAI_API_KEY not set") constCrew =
      (.error "OPENAI_API_KEY not set", []) :=
  (kickoff_failure_persists_nothing tokyoPrefs "20260610_083000"
    (.error "OPENAI_API_KEY not set") constCrew).2.1 "OPENAI_API_KEY not set" rfl

/-- Claim C6: for a resolvable location (nonempty geocoding results) and a
normal forecast response carrying the requested `current` and `daily` blocks,
the weather tool's result is the header followed by exactly one
current-conditions line and the daily-forecast block whose line list `ls` has
at most 7 entries — even though the request parameters ask the service for 14
forecast days. -/
theorem weather_run_seven_day_cap (location : String) (g : GeoInfo) (gs : List GeoInfo)
    (c : CurrentData) (d : DailyData) (ls : List String)
    (h : forecastLines d (List.range (min 7 d.time.length)) = Except.ok ls) :
    weatherRun location (g :: gs) (some c) (some d) =
      "Weather information for " ++ g.name ++ ", " ++ g.country.getD "" ++ ":\n\n" ++
        currentConditionsLine c ++ "Daily forecast:\n" ++ String.join ls
    ∧ ls.length ≤ 7
    ∧ weatherRequestParams.forecast_days = 14 := by
  refine ⟨?_, ?_, rfl⟩
  · simp only [weatherRun, weatherBody, h]
  · rw [forecastLines_length d _ ls h, List.length_range]
    exact Nat.min_le_left 7 _

/-- Claim C6 witness: a concrete one-day response yields one forecast line,
within the 7-line cap. -/
theorem weather_run_seven_day_cap_witness :
    List.length ["2026-06-10: Overcast, 18.0°C to 24.1°C, Precipitation: 0.5 mm\n"] ≤ 7 :=
  (weather_run_seven_day_cap "Tokyo" tokyoGeo [] tokyoCurrent tokyoDaily
    ["2026-06-10: Overcast, 18.0°C to 24.1°C, Precipitation: 0.5 mm\n"] rfl).2.1

/-- Claim C7: for every location string whose geocoding step returns no
results, `WeatherInfoTool._run` returns the could-not-find message — whatever
the forecast response would have held — and, being a total function into
`String`, never raises to its caller. -/
theorem weather_run_unresolvable_location (location : String)
    (current : Option CurrentData) (daily : Option DailyData) :
    weatherRun location [] current daily = "Could not find location: " ++ location := rfl

/-- Claim C8: whenever the fetch-and-parse step of `WebsiteSearchTool._run`
fails with any exception text `e`, the tool returns the error string prefixed
with the marker `"Error extracting information from website: "` — a total
function into `String`, never raising to its caller. -/
theorem website_run_error_marker (url : String) (query : Option String) (e : String) :
    websiteRun url query (Except.error e) = "Error extracting information from website: " ++ e
    ∧ ("Error extracting information from website: ").data.isPrefixOf
        (websiteRun url query (Except.error e)).data = true := by
  refine ⟨rfl, ?_⟩
  rw [show (websiteRun url query (Except.error e)).data
      = ("Error extracting information from website: ").data ++ e.data from rfl]
  exact List.isPrefixOf_iff_prefix.mpr ⟨e.data, rfl⟩

/-- Claim C9: the saved file's header lists one line per preference key, each
line carrying the title-cased key and the rendered value, with list-valued
preferences joined by `", "`; and whenever `_save_itinerary` succeeds, the file
content is exactly this header followed by the itinerary body. -/
theorem save_header_lists_every_preference (itinerary : String)
    (prefs : List (String × PVal)) (timestamp : String) :
    headerOf prefs =
      "# Travel Itinerary\n\n## Travel Preferences\n\n" ++
        String.join (prefs.map prefLine) ++ "\n## Itinerary\n\n"
    ∧ (∀ kv ∈ prefs, prefLine kv ∈ prefs.map prefLine
        ∧ prefLine kv = "- **" ++ pyTitle (pyReplaceChar '_' ' ' kv.1) ++ ":** " ++
            formattedValue kv.2 ++ "\n")
    ∧ (∀ xs, formattedValue (PVal.list xs) = String.intercalate ", " xs)
    ∧ (∀ fn content, save_itinerary itinerary prefs timestamp = .ok (fn, content) →
        content = headerOf prefs ++ itinerary) := by
  refine ⟨rfl, ?_, fun xs => rfl, ?_⟩
  · intro kv hkv
    exact ⟨List.mem_map_of_mem prefLine hkv, rfl⟩
  · intro fn content h
    cases hd : destinationToken prefs with
    | error e => simp [save_itinerary, hd] at h
    | ok dest =>
      simp only [save_itinerary, hd] at h
      injection h with h1
      injection h1 with hf hc
      exact hc.symm

/-- Claim C9 witness: in the Tokyo preferences, the list-valued `interests`
entry yields its own comma-joined header line. -/
theorem save_header_lists_every_preference_witness :
    prefLine ("interests", PVal.list ["Food", "Culture"]) ∈ tokyoPrefs.map prefLine
    ∧ prefLine ("interests", PVal.list ["Food", "Culture"]) =
      "- **" ++ pyTitle (pyReplaceChar '_' ' ' "interests") ++ ":** " ++
        formattedValue (PVal.list ["Food", "Culture"]) ++ "\n" :=
  (save_header_lists_every_preference "itinerary body" tokyoPrefs "20260610_083000").2.1
    ("interests", PVal.list ["Food", "Culture"]) (by decide)

/-- Claim C10: the weather-code rendering is total over the integers: the fixed
table has 28 entries, every tabulated code maps to its description (0 to
"Clear sky", 99 to "Thunderstorm with heavy hail"), and every integer outside
the table maps to "Unknown" rather than failing. -/
theorem weather_description_total (code : Int)
    (h : code ∉ weather_codes_table.map Prod.fst) :
    get_weather_description code = "Unknown"
    ∧ weather_codes_table.length = 28
    ∧ get_weather_description 0 = "Clear sky"
    ∧ get_weather_description 99 = "Thunderstorm with heavy hail"
    ∧ ∀ kv ∈ weather_codes_table, get_weather_description kv.1 = kv.2 := by
  refine ⟨?_, rfl, rfl, rfl, by decide⟩
  unfold get_weather_description
  rw [lookupCode_eq_none code _ h]
  rfl

/-- Claim C10 witness: code 42 is not in the table and renders as "Unknown". -/
theorem weather_description_total_witness :
    get_weather_description 42 = "Unknown" :=
  (weather_description_total 42 (by decide)).1

end TravelPlanner
